import Mathlib

/-!
Shallow embedding of the Puppeteer MCP server core
(src/mcp-servers/puppeteer/index.ts).

The server keeps two pieces of mutable state: an optional browser session
(`this.session : BrowserSession | null`) and a console-log buffer
(`this.consoleLogs : string[]`). Tool and resource handlers read and write
this state; a recurring cleanup timer evicts idle sessions. The browser
engine itself is external: engine calls that can fail (goto, close, title)
are threaded in as explicit `Except` outcomes, and the one structural fact
used about the engine is that a page call such as `title()` needs a live
browser connection. Wall-clock time is passed in explicitly as `now`.
-/

namespace Puppeteer

/-- `this.SESSION_TIMEOUT = 30 * 60 * 1000` (index.ts:24). -/
def SESSION_TIMEOUT : Nat := 30 * 60 * 1000

/-- The log buffer keeps only the last 100 entries (index.ts:471). -/
def LOG_CAPACITY : Nat := 100

/-- `BrowserSession` (index.ts:15-19): the browser handle is abstracted to
its connectivity flag, the page handle to the page data the handlers read
(current url and title). -/
structure BrowserSession where
  connected : Bool
  lastActivity : Nat
  url : String
  title : String
  deriving Repr, DecidableEq

/-- The server's mutable state: `this.session` and `this.consoleLogs`
(index.ts:23,25). -/
structure ServerState where
  session : Option BrowserSession
  consoleLogs : List String
  deriving Repr, DecidableEq

/-- Console event handler installed in `createBrowserSession`
(index.ts:466-474): push the entry, then if the buffer holds more than 100
entries keep only the last 100 (`slice(-100)` = drop all but the last 100). -/
def handleConsoleMsg (logs : List String) (entry : String) : List String :=
  if (logs ++ [entry]).length > LOG_CAPACITY then
    (logs ++ [entry]).drop ((logs ++ [entry]).length - LOG_CAPACITY)
  else
    logs ++ [entry]

/-- The buffer produced by a sequence of console events starting from an
empty buffer. -/
def buildLogs (events : List String) : List String :=
  events.foldl handleConsoleMsg []

/-- `createBrowserSession` (index.ts:442-486): launches a browser, opens a
page (initially `about:blank` with empty title), installs the console
listener and stores the new session with `lastActivity = Date.now()`.
It never touches `this.consoleLogs`. Engine launch is modelled as
succeeding (a launch failure raises and leaves the session absent; no
claim depends on that path). -/
def createBrowserSession (st : ServerState) (now : Nat) : ServerState :=
  { session := some { connected := true, lastActivity := now,
                      url := "about:blank", title := "" },
    consoleLogs := st.consoleLogs }

/-- `ensureBrowser` (index.ts:436-440): recreate the session when it is
absent or its browser is no longer connected. -/
def ensureBrowser (st : ServerState) (now : Nat) : ServerState :=
  match st.session with
  | none => createBrowserSession st now
  | some s => if s.connected then st else createBrowserSession st now

/-- `updateActivity` (index.ts:488-492). -/
def updateActivity (st : ServerState) (now : Nat) : ServerState :=
  match st.session with
  | none => st
  | some s => { st with session := some { s with lastActivity := now } }

/-- `closeBrowser` (index.ts:494-504): when a session exists, attempt
`browser.close()` — its outcome `closeResult` is swallowed either way
(the catch only logs) — then clear the session and empty the log buffer.
When no session exists, do nothing. The function is total: no branch
propagates a failure. -/
def closeBrowser (closeResult : Except String Unit) (st : ServerState) :
    ServerState :=
  match st.session with
  | none => st
  | some _ =>
    match closeResult with
    | .ok _ => { session := none, consoleLogs := [] }
    | .error _ => { session := none, consoleLogs := [] }

/-- One tick of the cleanup timer (index.ts:506-513): close the session
when one exists and `now - lastActivity > SESSION_TIMEOUT` (strict). -/
def cleanupTick (st : ServerState) (now : Nat)
    (closeResult : Except String Unit) : ServerState :=
  match st.session with
  | none => st
  | some s =>
    if now - s.lastActivity > SESSION_TIMEOUT then closeBrowser closeResult st
    else st

/-- Engine primitives a tool call may invoke, recorded as a trace. -/
inductive EngineCall where
  | launch : EngineCall
  | goto : String → EngineCall
  deriving Repr, DecidableEq

/-- The engine calls `ensureBrowser` performs: a launch exactly when the
session is absent or disconnected. -/
def ensureBrowserCalls (st : ServerState) : List EngineCall :=
  match st.session with
  | none => [EngineCall.launch]
  | some s => if s.connected then [] else [EngineCall.launch]

/-- Result of one tool call: the state it leaves behind, the engine
primitives it invoked, and its outcome (the text it returns, or the error
it throws — before the dispatch boundary wraps it). -/
structure ToolOutcome where
  state : ServerState
  engineCalls : List EngineCall
  result : Except String String
  deriving Repr

/-- JS `String.prototype.startsWith(p)`: the first `p.length` characters
of `s` equal `p`. -/
def jsStartsWith (s p : String) : Bool :=
  s.toList.take p.toList.length = p.toList

/-- The `navigate` tool case (index.ts:246-266): `ensureBrowser()` first,
then the URL scheme check `!url.startsWith('http://') &&
!url.startsWith('https://')`, and only then `page.goto(url)` (outcome
passed in as `gotoResult`); on success `updateActivity()` and a success
text naming the url. -/
def navigate (st : ServerState) (now : Nat) (url : String)
    (gotoResult : Except String Unit) : ToolOutcome :=
  let st1 := ensureBrowser st now
  let calls := ensureBrowserCalls st
  if !jsStartsWith url "http://" && !jsStartsWith url "https://" then
    { state := st1, engineCalls := calls,
      result := Except.error "URL must start with http:// or https://" }
  else
    match gotoResult with
    | .error e =>
      { state := st1, engineCalls := calls ++ [EngineCall.goto url],
        result := Except.error e }
    | .ok _ =>
      { state := updateActivity st1 now,
        engineCalls := calls ++ [EngineCall.goto url],
        result := Except.ok ("Successfully navigated to " ++ url) }

/-- Whole-document text is cut at 1000 characters (index.ts:409). -/
def TEXT_LIMIT : Nat := 1000

/-- The text returned by `get-text` with no selector (index.ts:398,409):
`Page text: ${text.substring(0, 1000)}${text.length > 1000 ? '...' : ''}`,
over the document text as a character sequence. -/
def pageTextResult (docText : List Char) : List Char :=
  "Page text: ".toList ++ docText.take TEXT_LIMIT ++
    (if docText.length > TEXT_LIMIT then "...".toList else [])

/-- Protocol error codes used by the handlers (from the MCP SDK). -/
inductive ErrorCode where
  | InvalidRequest : ErrorCode
  | InternalError : ErrorCode
  | MethodNotFound : ErrorCode
  deriving Repr, DecidableEq

/-- `McpError`: a protocol error with a code and a message. -/
structure McpError where
  code : ErrorCode
  message : String
  deriving Repr, DecidableEq

/-- A value thrown inside a handler body: either a plain engine/JS error
or an `McpError` the handler constructed itself. -/
inductive Thrown where
  | plain : String → Thrown
  | mcp : McpError → Thrown
  deriving Repr, DecidableEq

/-- JS string conversion of a thrown value, as interpolated into the
wrapping message. -/
def describeThrown : Thrown → String
  | .plain s => s
  | .mcp m => "McpError: " ++ m.message

/-- What a resource read returns: the console-log text, the
no-active-session object, or the current-page object
`{url, title, sessionActive}` (index.ts:86,99). -/
inductive ResourceView where
  | consoleText : String → ResourceView
  | noSession : ResourceView
  | pageInfo : String → String → Bool → ResourceView
  deriving Repr, DecidableEq

/-- `page.title()` (index.ts:93): an engine call over the browser
connection; it yields the page title on a live connection and throws a
protocol error when the connection has dropped. -/
def pageTitle (s : BrowserSession) : Except String String :=
  if s.connected then Except.ok s.title
  else Except.error "Protocol error: Connection closed"

/-- `this.consoleLogs.join('\n') || 'No console logs available'`
(index.ts:74): the empty joined string is falsy, so it falls back to the
placeholder. -/
def consoleLogsText (logs : List String) : String :=
  if String.intercalate "\n" logs = "" then "No console logs available"
  else String.intercalate "\n" logs

/-- Body of the ReadResource handler's `try` block (index.ts:67-106):
console-logs and current-page are served from state; any other uri throws
`McpError(InvalidRequest, ...)`. For current-page with no session the
no-active-session object is returned; otherwise `page.url()` (a
synchronous read of the cached url) and `await page.title()` feed the
page-info object. -/
def readResourceInner (st : ServerState) (uri : String) :
    Except Thrown ResourceView :=
  if uri = "puppeteer://console-logs" then
    Except.ok (ResourceView.consoleText (consoleLogsText st.consoleLogs))
  else if uri = "puppeteer://current-page" then
    match st.session with
    | none => Except.ok ResourceView.noSession
    | some s =>
      match pageTitle s with
      | .error e => Except.error (Thrown.plain e)
      | .ok t => Except.ok (ResourceView.pageInfo s.url t true)
  else
    Except.error (Thrown.mcp
      { code := ErrorCode.InvalidRequest, message := "Unknown resource: " ++ uri })

/-- The full ReadResource handler (index.ts:63-113): the `catch` wraps
every value thrown in the `try` block — the handler's own `McpError`
included — into `McpError(InternalError, "Failed to read resource ...")`. -/
def readResource (st : ServerState) (uri : String) :
    Except McpError ResourceView :=
  match readResourceInner st uri with
  | .ok v => Except.ok v
  | .error e =>
    Except.error
      { code := ErrorCode.InternalError,
        message := "Failed to read resource " ++ uri ++ ": " ++ describeThrown e }

end Puppeteer

namespace Puppeteer

/-- After any event sequence the buffer is exactly the most recent
`LOG_CAPACITY` events: appending one more event to a buffer in this shape
keeps the shape. -/
theorem handleConsoleMsg_drop (es : List String) (e : String) :
    handleConsoleMsg (es.drop (es.length - LOG_CAPACITY)) e
      = (es ++ [e]).drop ((es ++ [e]).length - LOG_CAPACITY) := by
  unfold handleConsoleMsg LOG_CAPACITY
  rcases Nat.lt_or_ge es.length 100 with h | h
  · have h0 : es.length - 100 = 0 := by omega
    have h1 : es.length + 1 - 100 = 0 := by omega
    simp [h0, h1, List.length_append]
  · have hd : (es.drop (es.length - 100)).length = 100 := by
      rw [List.length_drop]; omega
    have hcond : (es.drop (es.length - 100) ++ [e]).length > 100 := by
      rw [List.length_append, hd]; simp
    rw [if_pos hcond]
    rw [List.length_append, hd]
    have h2 : 100 + [e].length - 100 = 1 := by simp
    rw [h2]
    rw [List.drop_append_of_le_length (by omega : 1 ≤ (es.drop (es.length - 100)).length)]
    rw [List.drop_drop]
    rw [List.length_append]
    have h3 : es.length + [e].length - 100 = es.length - 100 + 1 := by
      simp; omega
    rw [h3]
    rw [List.drop_append_of_le_length (by omega : es.length - 100 + 1 ≤ es.length)]

/-- Closed form for the buffer: it always holds exactly the most recent
(at most `LOG_CAPACITY`) events. -/
theorem buildLogs_eq (events : List String) :
    buildLogs events = events.drop (events.length - LOG_CAPACITY) := by
  induction events using List.reverseRecOn with
  | nil => simp [buildLogs]
  | append_singleton es e ih =>
    unfold buildLogs
    rw [List.foldl_append]
    simp only [List.foldl_cons, List.foldl_nil]
    unfold buildLogs at ih
    rw [ih]
    exact handleConsoleMsg_drop es e

/-- Claim C2: the console log buffer never holds more than 100 entries;
it is exactly the most recent events; and when an append would push a full
buffer over capacity, the oldest entry is dropped FIFO, the newest is
present, and the evicted oldest (when it recurs nowhere else) is absent. -/
theorem log_buffer_capacity_fifo (events : List String) (e : String) :
    (buildLogs events).length ≤ LOG_CAPACITY
  ∧ buildLogs events = events.drop (events.length - LOG_CAPACITY)
  ∧ (events.length = LOG_CAPACITY →
       buildLogs (events ++ [e]) = events.drop 1 ++ [e]
     ∧ e ∈ buildLogs (events ++ [e])
     ∧ ∀ a, events.head? = some a → a ∉ events.tail → a ≠ e →
         a ∉ buildLogs (events ++ [e])) := by
  refine ⟨?_, buildLogs_eq events, ?_⟩
  · rw [buildLogs_eq, List.length_drop]
    unfold LOG_CAPACITY
    omega
  · intro hlen
    have hb : buildLogs (events ++ [e]) = events.drop 1 ++ [e] := by
      rw [buildLogs_eq]
      have h1 : (events ++ [e]).length - LOG_CAPACITY = 1 := by
        rw [List.length_append, hlen]
        simp
      rw [h1, List.drop_append_of_le_length]
      rw [hlen]
      unfold LOG_CAPACITY
      omega
    refine ⟨hb, ?_, ?_⟩
    · rw [hb]
      simp
    · intro a ha hnt hne
      rw [hb, List.drop_one]
      simp only [List.mem_append, List.mem_singleton]
      push_neg
      exact ⟨hnt, hne⟩

/-- Witness for C2 at a concrete full buffer: 100 entries headed by a
distinct oldest entry, then one more event. -/
theorem log_buffer_capacity_fifo_witness :
    ("z" :: List.replicate 99 "a").length = LOG_CAPACITY
  ∧ buildLogs (("z" :: List.replicate 99 "a") ++ ["b"])
      = List.replicate 99 "a" ++ ["b"]
  ∧ "b" ∈ buildLogs (("z" :: List.replicate 99 "a") ++ ["b"])
  ∧ "z" ∉ buildLogs (("z" :: List.replicate 99 "a") ++ ["b"]) := by
  have hlen : ("z" :: List.replicate 99 "a").length = LOG_CAPACITY := by
    simp [LOG_CAPACITY]
  have h := (log_buffer_capacity_fifo ("z" :: List.replicate 99 "a") "b").2.2 hlen
  refine ⟨hlen, ?_, h.2.1, ?_⟩
  · rw [h.1]
    rfl
  · exact h.2.2 "z" rfl (by decide) (by decide)

/-- Claim C5: `get-text` with no selector returns the first 1000
characters of the document text followed by the `...` marker when the text
is longer than 1000 characters, and the full text with no marker
otherwise. -/
theorem get_text_truncation (doc : List Char) :
    (TEXT_LIMIT < doc.length →
       pageTextResult doc
         = "Page text: ".toList ++ doc.take TEXT_LIMIT ++ "...".toList
     ∧ (doc.take TEXT_LIMIT).length = TEXT_LIMIT)
  ∧ (doc.length ≤ TEXT_LIMIT →
       pageTextResult doc = "Page text: ".toList ++ doc) := by
  constructor
  · intro h
    constructor
    · unfold pageTextResult
      rw [if_pos h]
    · rw [List.length_take]
      omega
  · intro h
    unfold pageTextResult
    rw [if_neg (by omega), List.take_of_length_le h]
    simp

/-- Witness for C5 at a concrete 1001-character document. -/
theorem get_text_truncation_witness :
    TEXT_LIMIT < (List.replicate 1001 'a').length
  ∧ pageTextResult (List.replicate 1001 'a')
      = "Page text: ".toList ++ (List.replicate 1001 'a').take TEXT_LIMIT
          ++ "...".toList
  ∧ ((List.replicate 1001 'a').take TEXT_LIMIT).length = TEXT_LIMIT
  ∧ ("ok".toList.length ≤ TEXT_LIMIT
     ∧ pageTextResult "ok".toList = "Page text: ".toList ++ "ok".toList) := by
  have hlong : TEXT_LIMIT < (List.replicate 1001 'a').length := by
    rw [List.length_replicate]
    unfold TEXT_LIMIT
    omega
  have h := (get_text_truncation (List.replicate 1001 'a')).1 hlong
  have hshort : ("ok".toList : List Char).length ≤ TEXT_LIMIT := by
    decide
  exact ⟨hlong, h.1, h.2, hshort, (get_text_truncation "ok".toList).2 hshort⟩

/-- A launch is the only engine call `ensureBrowser` can make, so its
trace never holds a `goto`. -/
theorem goto_not_mem_ensureBrowserCalls (st : ServerState) (u : String) :
    EngineCall.goto u ∉ ensureBrowserCalls st := by
  unfold ensureBrowserCalls
  cases hs : st.session with
  | none => simp
  | some s => cases s.connected <;> simp

/-- Claim C1: a `navigate` call whose url starts with neither `http://`
nor `https://` fails with the invalid-url error and never invokes the
engine's `goto` primitive. -/
theorem navigate_bad_scheme_no_goto (st : ServerState) (now : Nat)
    (url : String) (g : Except String Unit)
    (h1 : jsStartsWith url "http://" = false)
    (h2 : jsStartsWith url "https://" = false) :
    (navigate st now url g).result
      = Except.error "URL must start with http:// or https://"
  ∧ ∀ u, EngineCall.goto u ∉ (navigate st now url g).engineCalls := by
  have hcond : (!jsStartsWith url "http://" && !jsStartsWith url "https://") = true := by
    rw [h1, h2]
    rfl
  constructor
  · simp [navigate, hcond]
  · intro u
    simp only [navigate, hcond, if_true]
    exact goto_not_mem_ensureBrowserCalls st u

/-- Witness for C1 at the concrete url `ftp://example.com`. -/
theorem navigate_bad_scheme_no_goto_witness :
    (jsStartsWith "ftp://example.com" "http://" = false)
  ∧ (jsStartsWith "ftp://example.com" "https://" = false)
  ∧ (navigate { session := none, consoleLogs := [] } 0 "ftp://example.com"
       (Except.ok ())).result
      = Except.error "URL must start with http:// or https://"
  ∧ ∀ u, EngineCall.goto u
      ∉ (navigate { session := none, consoleLogs := [] } 0 "ftp://example.com"
           (Except.ok ())).engineCalls := by
  have h1 : jsStartsWith "ftp://example.com" "http://" = false := by decide
  have h2 : jsStartsWith "ftp://example.com" "https://" = false := by decide
  have h := navigate_bad_scheme_no_goto { session := none, consoleLogs := [] }
    0 "ftp://example.com" (Except.ok ()) h1 h2
  exact ⟨h1, h2, h.1, h.2⟩

/-- Claim C9: `navigate` runs `ensureBrowser` before the url validation,
so with no session and an invalid url a fresh connected session is created
and remains even though the call fails with the invalid-url error. -/
theorem navigate_bad_scheme_creates_session (st : ServerState) (now : Nat)
    (url : String) (g : Except String Unit)
    (hn : st.session = none)
    (h1 : jsStartsWith url "http://" = false)
    (h2 : jsStartsWith url "https://" = false) :
    (navigate st now url g).state.session
      = some { connected := true, lastActivity := now,
               url := "about:blank", title := "" }
  ∧ (navigate st now url g).result
      = Except.error "URL must start with http:// or https://" := by
  have hcond : (!jsStartsWith url "http://" && !jsStartsWith url "https://") = true := by
    rw [h1, h2]
    rfl
  constructor
  · simp [navigate, hcond, ensureBrowser, hn, createBrowserSession]
  · simp [navigate, hcond]

/-- Witness for C9 at the concrete url `example.com` with no session. -/
theorem navigate_bad_scheme_creates_session_witness :
    ({ session := none, consoleLogs := ["[log] old"] } : ServerState).session = none
  ∧ (jsStartsWith "example.com" "http://" = false)
  ∧ (jsStartsWith "example.com" "https://" = false)
  ∧ (navigate { session := none, consoleLogs := ["[log] old"] } 42 "example.com"
       (Except.ok ())).state.session
      = some { connected := true, lastActivity := 42,
               url := "about:blank", title := "" }
  ∧ (navigate { session := none, consoleLogs := ["[log] old"] } 42 "example.com"
       (Except.ok ())).result
      = Except.error "URL must start with http:// or https://" := by
  have h1 : jsStartsWith "example.com" "http://" = false := by decide
  have h2 : jsStartsWith "example.com" "https://" = false := by decide
  have h := navigate_bad_scheme_creates_session
    { session := none, consoleLogs := ["[log] old"] } 42 "example.com"
    (Except.ok ()) rfl h1 h2
  exact ⟨rfl, h1, h2, h.1, h.2⟩

/-- `ensureBrowser` always leaves a connected session in place. -/
theorem ensureBrowser_connected (st : ServerState) (now : Nat) :
    ∃ s1, (ensureBrowser st now).session = some s1 ∧ s1.connected = true := by
  cases hs : st.session with
  | none =>
    refine ⟨{ connected := true, lastActivity := now,
              url := "about:blank", title := "" }, ?_, rfl⟩
    simp [ensureBrowser, hs, createBrowserSession]
  | some s =>
    cases hc : s.connected with
    | true => exact ⟨s, by simp [ensureBrowser, hs, hc], hc⟩
    | false =>
      refine ⟨{ connected := true, lastActivity := now,
                url := "about:blank", title := "" }, ?_, rfl⟩
      simp [ensureBrowser, hs, hc, createBrowserSession]

/-- Reading the current-page resource, by cases on the session state. -/
theorem readResourceInner_currentPage (st : ServerState) :
    readResourceInner st "puppeteer://current-page"
      = match st.session with
        | none => Except.ok ResourceView.noSession
        | some s =>
          match pageTitle s with
          | .error e => Except.error (Thrown.plain e)
          | .ok t => Except.ok (ResourceView.pageInfo s.url t true) := by
  unfold readResourceInner
  rw [if_neg (by decide), if_pos rfl]

/-- Current-page read with no session: the no-active-session object. -/
theorem readResource_currentPage_none (st : ServerState)
    (hn : st.session = none) :
    readResource st "puppeteer://current-page"
      = Except.ok ResourceView.noSession := by
  unfold readResource
  rw [readResourceInner_currentPage, hn]

/-- Current-page read with a connected session: the page-info object. -/
theorem readResource_currentPage_conn (st : ServerState) (s : BrowserSession)
    (hs : st.session = some s) (hc : s.connected = true) :
    readResource st "puppeteer://current-page"
      = Except.ok (ResourceView.pageInfo s.url s.title true) := by
  unfold readResource
  rw [readResourceInner_currentPage, hs]
  simp [pageTitle, hc]

/-- Current-page read with a disconnected session: `page.title()` throws
and the handler surfaces a wrapped internal error, never a page-info
object. -/
theorem readResource_currentPage_disc (st : ServerState) (s : BrowserSession)
    (hs : st.session = some s) (hc : s.connected = false) :
    readResource st "puppeteer://current-page"
      = Except.error
          { code := ErrorCode.InternalError,
            message := "Failed to read resource puppeteer://current-page: Protocol error: Connection closed" } := by
  unfold readResource
  rw [readResourceInner_currentPage, hs]
  simp [pageTitle, hc, describeThrown]

/-- Claim C3: `ensureBrowser` always leaves a connected session, and no
observation reports an active session with a disconnected browser: with a
disconnected session the current-page read fails rather than reporting
page info, a page-info result implies the session was connected, and with
no session the no-active-session object is returned. -/
theorem session_never_exposed_disconnected (st : ServerState) (now : Nat) :
    (∃ s1, (ensureBrowser st now).session = some s1 ∧ s1.connected = true)
  ∧ (∀ s, st.session = some s → s.connected = false →
       ∃ m, readResource st "puppeteer://current-page" = Except.error m)
  ∧ (∀ s u t b, st.session = some s →
       readResource st "puppeteer://current-page"
         = Except.ok (ResourceView.pageInfo u t b) →
       s.connected = true)
  ∧ (st.session = none →
       readResource st "puppeteer://current-page"
         = Except.ok ResourceView.noSession) := by
  refine ⟨ensureBrowser_connected st now, ?_, ?_, readResource_currentPage_none st⟩
  · intro s hs hc
    exact ⟨_, readResource_currentPage_disc st s hs hc⟩
  · intro s u t b hs hok
    cases hc : s.connected with
    | true => rfl
    | false =>
      rw [readResource_currentPage_disc st s hs hc] at hok
      exact absurd hok (by simp)

/-- Witness for C3 at concrete disconnected, connected and absent-session
states. -/
theorem session_never_exposed_disconnected_witness :
    (∃ s1, (ensureBrowser
        { session := some { connected := false, lastActivity := 3,
                            url := "https://a.example", title := "A" },
          consoleLogs := [] } 9).session = some s1 ∧ s1.connected = true)
  ∧ (∃ m, readResource
        { session := some { connected := false, lastActivity := 3,
                            url := "https://a.example", title := "A" },
          consoleLogs := [] } "puppeteer://current-page" = Except.error m)
  ∧ ({ connected := true, lastActivity := 3, url := "https://a.example",
       title := "A" } : BrowserSession).connected = true
  ∧ readResource { session := none, consoleLogs := [] }
      "puppeteer://current-page" = Except.ok ResourceView.noSession := by
  have hd := session_never_exposed_disconnected
    { session := some { connected := false, lastActivity := 3,
                        url := "https://a.example", title := "A" },
      consoleLogs := [] } 9
  have hc := session_never_exposed_disconnected
    { session := some { connected := true, lastActivity := 3,
                        url := "https://a.example", title := "A" },
      consoleLogs := [] } 9
  have hn := session_never_exposed_disconnected
    { session := none, consoleLogs := [] } 9
  refine ⟨hd.1, hd.2.1 _ rfl rfl, ?_, hn.2.2.2 rfl⟩
  exact hc.2.2.1 _ "https://a.example" "A" true rfl
    (readResource_currentPage_conn _ _ rfl rfl)

/-- Claim C4 (amended): a cleanup tick closes the session if and only if
one exists and the idle time strictly exceeds the 30-minute threshold; at
or below the threshold the tick is a no-op, and once the idle time
strictly exceeds the threshold the tick closes the session and empties
the log buffer. -/
theorem cleanup_tick_strict_threshold (st : ServerState) (now : Nat)
    (r : Except String Unit) :
    (st.session = none → cleanupTick st now r = st)
  ∧ (∀ s, st.session = some s → now - s.lastActivity ≤ SESSION_TIMEOUT →
       cleanupTick st now r = st)
  ∧ (∀ s, st.session = some s → SESSION_TIMEOUT < now - s.lastActivity →
       (cleanupTick st now r).session = none
     ∧ (cleanupTick st now r).consoleLogs = []) := by
  refine ⟨?_, ?_, ?_⟩
  · intro hn
    simp [cleanupTick, hn]
  · intro s hs hle
    simp only [cleanupTick, hs]
    rw [if_neg (by omega)]
  · intro s hs hgt
    simp only [cleanupTick, hs]
    rw [if_pos hgt]
    cases r <;> simp [closeBrowser, hs]

/-- Witness for C4 at concrete idle times one millisecond on either side
of the threshold, and at an absent session. -/
theorem cleanup_tick_strict_threshold_witness :
    cleanupTick { session := none, consoleLogs := [] } 5 (Except.ok ())
      = { session := none, consoleLogs := [] }
  ∧ cleanupTick
      { session := some { connected := true, lastActivity := 0,
                          url := "https://a.example", title := "A" },
        consoleLogs := ["[log] x"] } (SESSION_TIMEOUT - 1) (Except.ok ())
      = { session := some { connected := true, lastActivity := 0,
                            url := "https://a.example", title := "A" },
          consoleLogs := ["[log] x"] }
  ∧ (cleanupTick
      { session := some { connected := true, lastActivity := 0,
                          url := "https://a.example", title := "A" },
        consoleLogs := ["[log] x"] } (SESSION_TIMEOUT + 1)
        (Except.ok ())).session = none
  ∧ (cleanupTick
      { session := some { connected := true, lastActivity := 0,
                          url := "https://a.example", title := "A" },
        consoleLogs := ["[log] x"] } (SESSION_TIMEOUT + 1)
        (Except.ok ())).consoleLogs = [] := by
  have h1 := (cleanup_tick_strict_threshold
    { session := none, consoleLogs := [] } 5 (Except.ok ())).1 rfl
  have h2 := (cleanup_tick_strict_threshold
    { session := some { connected := true, lastActivity := 0,
                        url := "https://a.example", title := "A" },
      consoleLogs := ["[log] x"] } (SESSION_TIMEOUT - 1) (Except.ok ())).2.1
    _ rfl (by decide)
  have h3 := (cleanup_tick_strict_threshold
    { session := some { connected := true, lastActivity := 0,
                        url := "https://a.example", title := "A" },
      consoleLogs := ["[log] x"] } (SESSION_TIMEOUT + 1) (Except.ok ())).2.2
    _ rfl (by decide)
  exact ⟨h1, h2, h3.1, h3.2⟩

/-- Counterexample to C4 as stated: at an idle period of exactly the
threshold — an idle period of at least the threshold — the tick does not
close the session, because the code tests `now - lastActivity >
SESSION_TIMEOUT` strictly. -/
theorem cleanup_tick_at_threshold_counterexample :
    SESSION_TIMEOUT - 0 ≥ SESSION_TIMEOUT
  ∧ (cleanupTick
      { session := some { connected := true, lastActivity := 0,
                          url := "https://a.example", title := "A" },
        consoleLogs := ["[log] x"] } SESSION_TIMEOUT (Except.ok ()))
      = { session := some { connected := true, lastActivity := 0,
                            url := "https://a.example", title := "A" },
          consoleLogs := ["[log] x"] } := by
  constructor
  · omega
  · rfl

/-- Claim C6: `closeBrowser` swallows any failure of the engine close
(its result never changes the outcome), clears the session and empties
the log buffer when a session exists, does nothing when none exists, and
is idempotent. -/
theorem close_browser_idempotent_best_effort (st : ServerState)
    (r r2 : Except String Unit) :
    closeBrowser r st = closeBrowser r2 st
  ∧ (∀ s, st.session = some s →
       (closeBrowser r st).session = none
     ∧ (closeBrowser r st).consoleLogs = [])
  ∧ (st.session = none → closeBrowser r st = st)
  ∧ closeBrowser r2 (closeBrowser r st) = closeBrowser r st := by
  refine ⟨?_, ?_, ?_, ?_⟩
  · cases hs : st.session <;> cases r <;> cases r2 <;> simp [closeBrowser, hs]
  · intro s hs
    cases r <;> simp [closeBrowser, hs]
  · intro hn
    cases r <;> simp [closeBrowser, hn]
  · cases hs : st.session <;> cases r <;> cases r2 <;> simp [closeBrowser, hs]

/-- Witness for C6 at a concrete live session and a failing engine
close. -/
theorem close_browser_idempotent_best_effort_witness :
    closeBrowser (Except.error "close failed")
      { session := some { connected := true, lastActivity := 1,
                          url := "https://a.example", title := "A" },
        consoleLogs := ["[log] x"] }
      = closeBrowser (Except.ok ())
          { session := some { connected := true, lastActivity := 1,
                              url := "https://a.example", title := "A" },
            consoleLogs := ["[log] x"] }
  ∧ (closeBrowser (Except.error "close failed")
      { session := some { connected := true, lastActivity := 1,
                          url := "https://a.example", title := "A" },
        consoleLogs := ["[log] x"] }).session = none
  ∧ (closeBrowser (Except.error "close failed")
      { session := some { connected := true, lastActivity := 1,
                          url := "https://a.example", title := "A" },
        consoleLogs := ["[log] x"] }).consoleLogs = []
  ∧ closeBrowser (Except.ok ()) { session := none, consoleLogs := [] }
      = { session := none, consoleLogs := [] }
  ∧ closeBrowser (Except.ok ())
      (closeBrowser (Except.error "close failed")
        { session := some { connected := true, lastActivity := 1,
                            url := "https://a.example", title := "A" },
          consoleLogs := ["[log] x"] })
      = closeBrowser (Except.error "close failed")
          { session := some { connected := true, lastActivity := 1,
                              url := "https://a.example", title := "A" },
            consoleLogs := ["[log] x"] } := by
  have h := close_browser_idempotent_best_effort
    { session := some { connected := true, lastActivity := 1,
                        url := "https://a.example", title := "A" },
      consoleLogs := ["[log] x"] }
    (Except.error "close failed") (Except.ok ())
  have hn := close_browser_idempotent_best_effort
    { session := none, consoleLogs := [] } (Except.ok ()) (Except.ok ())
  exact ⟨h.1, (h.2.1 _ rfl).1, (h.2.1 _ rfl).2, hn.2.2.1 rfl, h.2.2.2⟩

/-- Claim C8: after a close the session reference is gone, and the next
tool call requiring a browser transparently creates a fresh connected
session and succeeds (no stale-handle failure), shown on `navigate`. -/
theorem fresh_session_after_close (st : ServerState)
    (r : Except String Unit) (now : Nat) (url : String)
    (h1 : jsStartsWith url "http://" = true) :
    (closeBrowser r st).session = none
  ∧ (∃ s, (ensureBrowser (closeBrowser r st) now).session = some s
       ∧ s.connected = true ∧ s.lastActivity = now)
  ∧ (navigate (closeBrowser r st) now url (Except.ok ())).result
      = Except.ok ("Successfully navigated to " ++ url) := by
  have hclosed : (closeBrowser r st).session = none := by
    cases hs : st.session <;> cases r <;> simp [closeBrowser, hs]
  have hcond : (!jsStartsWith url "http://" && !jsStartsWith url "https://")
      = false := by
    rw [h1]
    rfl
  refine ⟨hclosed, ?_, ?_⟩
  · refine ⟨{ connected := true, lastActivity := now,
              url := "about:blank", title := "" }, ?_, rfl, rfl⟩
    simp [ensureBrowser, hclosed, createBrowserSession]
  · simp [navigate, hcond]

/-- Witness for C8: close a live session on a failing engine close, then
navigate to a concrete `http://` url. -/
theorem fresh_session_after_close_witness :
    jsStartsWith "http://example.com" "http://" = true
  ∧ (closeBrowser (Except.error "boom")
      { session := some { connected := true, lastActivity := 2,
                          url := "https://a.example", title := "A" },
        consoleLogs := ["[log] x"] }).session = none
  ∧ (∃ s, (ensureBrowser
        (closeBrowser (Except.error "boom")
          { session := some { connected := true, lastActivity := 2,
                              url := "https://a.example", title := "A" },
            consoleLogs := ["[log] x"] }) 7).session = some s
       ∧ s.connected = true ∧ s.lastActivity = 7)
  ∧ (navigate
      (closeBrowser (Except.error "boom")
        { session := some { connected := true, lastActivity := 2,
                            url := "https://a.example", title := "A" },
          consoleLogs := ["[log] x"] }) 7 "http://example.com"
      (Except.ok ())).result
      = Except.ok ("Successfully navigated to " ++ "http://example.com") := by
  have h1 : jsStartsWith "http://example.com" "http://" = true := by decide
  have h := fresh_session_after_close
    { session := some { connected := true, lastActivity := 2,
                        url := "https://a.example", title := "A" },
      consoleLogs := ["[log] x"] }
    (Except.error "boom") 7 "http://example.com" h1
  exact ⟨h1, h.1, h.2.1, h.2.2⟩

/-- Claim C10: session creation never touches the log buffer, so when
`ensureBrowser` replaces a disconnected session (a path that bypasses
`closeBrowser`) the console entries captured during the previous session
stay in the buffer and the console-logs resource still serves them. -/
theorem session_recreation_preserves_logs (st : ServerState) (now : Nat) :
    (createBrowserSession st now).consoleLogs = st.consoleLogs
  ∧ (ensureBrowser st now).consoleLogs = st.consoleLogs
  ∧ (∀ s, st.session = some s → s.connected = false →
       (∃ s1, (ensureBrowser st now).session = some s1 ∧ s1.connected = true)
     ∧ readResource (ensureBrowser st now) "puppeteer://console-logs"
         = readResource st "puppeteer://console-logs") := by
  have hlogs : (ensureBrowser st now).consoleLogs = st.consoleLogs := by
    cases hs : st.session with
    | none => simp [ensureBrowser, hs, createBrowserSession]
    | some s =>
      cases hc : s.connected <;>
        simp [ensureBrowser, hs, hc, createBrowserSession]
  refine ⟨rfl, hlogs, ?_⟩
  intro s hs hc
  constructor
  · exact ensureBrowser_connected st now
  · unfold readResource readResourceInner
    rw [if_pos rfl, if_pos rfl, hlogs]

/-- Witness for C10 at a concrete disconnected session holding one
captured log entry. -/
theorem session_recreation_preserves_logs_witness :
    (ensureBrowser
      { session := some { connected := false, lastActivity := 4,
                          url := "https://a.example", title := "A" },
        consoleLogs := ["[error] crash"] } 11).consoleLogs
      = ["[error] crash"]
  ∧ (∃ s1, (ensureBrowser
      { session := some { connected := false, lastActivity := 4,
                          url := "https://a.example", title := "A" },
        consoleLogs := ["[error] crash"] } 11).session = some s1
       ∧ s1.connected = true)
  ∧ readResource
      (ensureBrowser
        { session := some { connected := false, lastActivity := 4,
                            url := "https://a.example", title := "A" },
          consoleLogs := ["[error] crash"] } 11)
      "puppeteer://console-logs"
      = readResource
          { session := some { connected := false, lastActivity := 4,
                              url := "https://a.example", title := "A" },
            consoleLogs := ["[error] crash"] }
          "puppeteer://console-logs" := by
  have h := session_recreation_preserves_logs
    { session := some { connected := false, lastActivity := 4,
                        url := "https://a.example", title := "A" },
      consoleLogs := ["[error] crash"] } 11
  have h3 := h.2.2 _ rfl rfl
  exact ⟨h.2.1, h3.1, h3.2⟩

/-- Claim C7 (code bug): the ReadResource handler builds
`McpError(InvalidRequest)` for an unknown uri, but its own catch-all
re-wraps that value, so the error that reaches the caller carries
`InternalError` — the uniform execution-failure category — and an
invalid-request class error never surfaces, for any state and uri. -/
theorem unknown_resource_error_wrapped :
    readResourceInner { session := none, consoleLogs := [] }
      "puppeteer://invalid"
      = Except.error (Thrown.mcp
          { code := ErrorCode.InvalidRequest,
            message := "Unknown resource: puppeteer://invalid" })
  ∧ readResource { session := none, consoleLogs := [] } "puppeteer://invalid"
      = Except.error
          { code := ErrorCode.InternalError,
            message := "Failed to read resource puppeteer://invalid: McpError: Unknown resource: puppeteer://invalid" }
  ∧ ∀ (st : ServerState) (uri : String) (m : McpError),
      readResource st uri = Except.error m →
      m.code = ErrorCode.InternalError := by
  refine ⟨by rfl, by rfl, ?_⟩
  intro st uri m h
  unfold readResource at h
  cases hri : readResourceInner st uri with
  | ok v =>
    rw [hri] at h
    exact absurd h (by simp)
  | error e =>
    rw [hri] at h
    simp only [Except.error.injEq] at h
    rw [← h]

/-- Witness for C7's general conjunct at a concrete unknown uri. -/
theorem unknown_resource_error_wrapped_witness :
    ({ code := ErrorCode.InternalError,
       message := "Failed to read resource puppeteer://nope: McpError: Unknown resource: puppeteer://nope" } :
      McpError).code = ErrorCode.InternalError := by
  exact unknown_resource_error_wrapped.2.2
    { session := none, consoleLogs := [] } "puppeteer://nope" _ rfl

end Puppeteer
